import Mathlib

/-!
Verification development for the Solutions view component
(src/src/_pages/Solutions.tsx of kaheiman/interviewpro).

The component state (React useState hooks plus the react-query cache and the
app-level view) is embedded as an explicit state record, and each bridge event
handler becomes a state-transition function.  The dagre layout call inside
getLayoutedElements is an external library call; its output (a position for
every node id) is modelled as an explicit oracle parameter "layout", and the
surrounding code of getLayoutedElements is translated faithfully.  JavaScript
falsiness of null/undefined and of the empty string is made explicit where the
source relies on it ("||" versus "??").
-/

/-! ## Query cache and component state -/

/-- The problem_statement entry of the query cache (types/solutions). -/
structure ProblemStatementData where
  problem_statement : String
deriving DecidableEq

/-- Shape of the cached "solution" entry, as the source casts it:
code, thoughts, time_complexity, space_complexity.  The cast is unchecked in
TypeScript, so each field may be absent: fields are Options. -/
structure CachedSolution where
  code : Option String
  thoughts : Option (List String)
  time_complexity : Option String
  space_complexity : Option String
deriving DecidableEq

/-- Opaque payload of the "new_solution" (debug) cache entry; the component
never inspects it, only stores and tests presence. -/
structure DebugSolutionData where
  payload : String
deriving DecidableEq

/-- The client-side query cache restricted to the three keys the component
uses: problem_statement, solution, new_solution. -/
structure QueryCache where
  problem_statement : Option ProblemStatementData
  solution : Option CachedSolution
  new_solution : Option DebugSolutionData
deriving DecidableEq

/-- The app-level view set through the setView prop. -/
inductive View
  | queue
  | solutions
  | debug
deriving DecidableEq

inductive ToastVariant
  | success
  | error
  | neutral
deriving DecidableEq

structure Toast where
  title : String
  message : String
  variant : ToastVariant
deriving DecidableEq

structure Screenshot where
  id : String
  path : String
  preview : String
  timestamp : Nat
deriving DecidableEq

/-- State visible to the Solutions component: the view prop, the query cache,
and the useState hooks of the component. -/
structure SolutionsState where
  view : View
  cache : QueryCache
  problemStatementData : Option ProblemStatementData
  solutionData : Option String
  thoughtsData : Option (List String)
  timeComplexityData : Option String
  spaceComplexityData : Option String
  extraScreenshots : List Screenshot
  debugProcessing : Bool
  isResetting : Bool
  activeSystemDesignSolutionTab : String
  toasts : List Toast
deriving DecidableEq

/-- Initial values of the useState hooks: problemStatementData null,
solutionData null, thoughtsData null, complexity data null, extraScreenshots
empty, debugProcessing false, isResetting false, and the system design tab
initialised to "Diagram" (useState of the string Diagram). -/
def initialSolutionsState : SolutionsState where
  view := .solutions
  cache := ⟨none, none, none⟩
  problemStatementData := none
  solutionData := none
  thoughtsData := none
  timeComplexityData := none
  spaceComplexityData := none
  extraScreenshots := []
  debugProcessing := false
  isResetting := false
  activeSystemDesignSolutionTab := "Diagram"
  toasts := []

/-! ## Bridge event handlers -/

/-- showToast from the toast context: appends a toast. -/
def showToastTo (s : SolutionsState) (title message : String) (variant : ToastVariant) :
    SolutionsState :=
  { s with toasts := s.toasts ++ [⟨title, message, variant⟩] }

/-- onResetView handler: sets isResetting, removes the solution and
new_solution queries from the cache, and empties extraScreenshots.  (The
setTimeout that clears isResetting again runs asynchronously after the
handler; this definition is the synchronous handler body.) -/
def onResetView (s : SolutionsState) : SolutionsState :=
  { s with
    isResetting := true
    cache := { s.cache with solution := none, new_solution := none }
    extraScreenshots := [] }

/-- onSolutionStart handler: resets the four local solution fields to null. -/
def onSolutionStart (s : SolutionsState) : SolutionsState :=
  { s with
    solutionData := none
    thoughtsData := none
    timeComplexityData := none
    spaceComplexityData := none }

/-- JavaScript "x || null" on an optional string: the empty string is falsy
and collapses to null. -/
def jsStringOrNull : Option String → Option String
  | some str => if str = "" then none else some str
  | none => none

/-- onProblemExtracted handler: stores the data under the problem_statement
cache key. -/
def onProblemExtracted (data : ProblemStatementData) (s : SolutionsState) : SolutionsState :=
  { s with cache := { s.cache with problem_statement := some data } }

/-- onSolutionError handler: shows an error toast, reads the cached solution,
switches the view to queue when no solution is cached, and resets the four
local solution fields from the cached entry using JavaScript "|| null"
(arrays are always truthy, so thoughts is a plain bind). -/
def onSolutionError (err : String) (s : SolutionsState) : SolutionsState :=
  let s1 := showToastTo s "Processing Failed" err .error
  let solution := s1.cache.solution
  let s2 := if solution = none then { s1 with view := View.queue } else s1
  { s2 with
    solutionData := jsStringOrNull (solution.bind CachedSolution.code)
    thoughtsData := solution.bind CachedSolution.thoughts
    timeComplexityData := jsStringOrNull (solution.bind CachedSolution.time_complexity)
    spaceComplexityData := jsStringOrNull (solution.bind CachedSolution.space_complexity) }

/-- onSolutionSuccess handler: guards against empty data, stores the solution
in the cache and mirrors its fields into the local state. -/
def onSolutionSuccess (data : Option CachedSolution) (s : SolutionsState) : SolutionsState :=
  match data with
  | none => s
  | some d =>
    { s with
      cache := { s.cache with solution := some d }
      solutionData := jsStringOrNull d.code
      thoughtsData := d.thoughts
      timeComplexityData := jsStringOrNull d.time_complexity
      spaceComplexityData := jsStringOrNull d.space_complexity }

/-- onDebugStart handler. -/
def onDebugStart (s : SolutionsState) : SolutionsState :=
  { s with debugProcessing := true }

/-- onDebugSuccess handler: stores the debug data under new_solution and
clears the processing flag. -/
def onDebugSuccess (data : DebugSolutionData) (s : SolutionsState) : SolutionsState :=
  { s with
    cache := { s.cache with new_solution := some data }
    debugProcessing := false }

/-- onDebugError handler: shows an error toast and clears the debug
processing flag; nothing else. -/
def onDebugError (s : SolutionsState) : SolutionsState :=
  { showToastTo s "Processing Failed" "There was an error debugging your code." .error with
    debugProcessing := false }

/-- The query-cache subscription callback: on an event whose query key starts
with problem_statement, re-read the problem_statement entry; on an event
whose query key starts with solution, re-read the solution entry and mirror
its four fields with "?? null". -/
def onCacheNotification (queryKey : List String) (s : SolutionsState) : SolutionsState :=
  let s1 :=
    if queryKey.head? = some "problem_statement" then
      { s with problemStatementData := s.cache.problem_statement }
    else s
  if queryKey.head? = some "solution" then
    { s1 with
      solutionData := s1.cache.solution.bind CachedSolution.code
      thoughtsData := s1.cache.solution.bind CachedSolution.thoughts
      timeComplexityData := s1.cache.solution.bind CachedSolution.time_complexity
      spaceComplexityData := s1.cache.solution.bind CachedSolution.space_complexity }
  else s1

/-! ## formatComplexity (ComplexitySection helper) -/

/-- The fallback complexity text. -/
def complexityDefault : String := "O(n) - Linear time/space complexity"

/-- Whether the character list contains a match of the pattern of a capital
or small letter O, an opening parenthesis, one or more characters other than
a closing parenthesis, and a closing parenthesis - the regex the source tests
with the case-insensitive flag. -/
def hasBigO : List Char → Bool
  | [] => false
  | c :: rest =>
    (match rest with
     | '(' :: d :: rest2 => (c == 'O' || c == 'o') && !(d == ')') && rest2.contains ')'
     | _ => false)
    || hasBigO rest

/-- formatComplexity: null and the empty string are falsy and yield the
default text; a string containing a big-O pattern is returned unchanged;
any other string is prefixed. -/
def formatComplexity : Option String → String
  | none => complexityDefault
  | some s =>
    if s = "" then complexityDefault
    else if hasBigO s.data then s
    else "O(n) - " ++ s

/-! ## getLayoutedElements

The dagre layout call is external: dagre assigns every registered node id a
centre position.  It is modelled by the oracle parameter "layout" (coordinates
as integers; only exact subtraction and order comparisons are performed on
them).  Everything around the call is translated from the source. -/

def nodeWidth : Int := 120

def nodeHeight : Int := 60

structure XY where
  x : Int
  y : Int
deriving DecidableEq

inductive LayoutDirection
  | TB
  | BT
  | LR
  | RL
deriving DecidableEq

inductive HandlePosition
  | top
  | bottom
  | left
  | right
deriving DecidableEq

structure NodeData where
  label : String
deriving DecidableEq

structure NodeStyle where
  background : String
  color : String
  border : String
  borderRadius : Int
  fontWeight : String
  padding : Int
deriving DecidableEq

/-- React Flow node as used by the source: id, data label, position, handle
positions and style. -/
structure FlowNode where
  id : String
  data : NodeData
  position : XY
  sourcePosition : Option HandlePosition := none
  targetPosition : Option HandlePosition := none
  style : Option NodeStyle := none
deriving DecidableEq

inductive MarkerKind
  | arrowClosed
deriving DecidableEq

structure MarkerEnd where
  type : MarkerKind
  color : String
deriving DecidableEq

structure EdgeStyle where
  stroke : String
  strokeWidth : Int
deriving DecidableEq

structure LabelStyle where
  fill : String
  fontWeight : Int
  transform : String
  fontSize : Int
  maxWidth : Int
  whiteSpace : String
  wordWrap : String
  overflowWrap : String
  width : String
deriving DecidableEq

structure LabelBgStyle where
  fillOpacity : Int
deriving DecidableEq

/-- React Flow edge as used by the source. -/
structure FlowEdge where
  id : String
  source : String
  target : String
  label : Option String := none
  markerEnd : Option MarkerEnd := none
  style : Option EdgeStyle := none
  labelStyle : Option LabelStyle := none
  labelBgStyle : Option LabelBgStyle := none
  labelBgPadding : Option (Int × Int) := none
  labelBgBorderRadius : Option Int := none
deriving DecidableEq

structure LayoutResult where
  nodes : List FlowNode
  edges : List FlowEdge
deriving DecidableEq

/-- isHorizontal in the source: direction is LR or RL. -/
def isHorizontalDir (direction : LayoutDirection) : Bool :=
  direction = .LR || direction = .RL

/-- The nodeMap built while mapping over the nodes: every node id that occurs
in the node list is mapped to its dagre position; a lookup of any other id
returns undefined. -/
def layoutNodeMap (layout : String → XY) (nodes : List FlowNode) : String → Option XY :=
  fun nodeId => if nodes.any (fun n => n.id == nodeId) then some (layout nodeId) else none

/-- The sourceToTargets record: for a source id, the list of pairs of target
id and target x coordinate contributed by the edges with that source, in edge
order; a missing target id contributes x = 0 (the "?? 0" in the source). -/
def fanoutTargets (layout : String → XY) (nodes : List FlowNode) (edges : List FlowEdge)
    (src : String) : List (String × Int) :=
  (edges.filter (fun e => e.source == src)).map
    (fun e => (e.target, ((layoutNodeMap layout nodes e.target).map XY.x).getD 0))

/-- Stable insertion into a list sorted by ascending x (second component);
an element is inserted before the first element it is not greater than, which
matches the stable JavaScript sort with comparator a.x - b.x. -/
def insertByX (p : String × Int) : List (String × Int) → List (String × Int)
  | [] => [p]
  | q :: qs => if p.2 ≤ q.2 then p :: q :: qs else q :: insertByX p qs

/-- Stable ascending sort by the x component. -/
def sortByX : List (String × Int) → List (String × Int)
  | [] => []
  | p :: ps => insertByX p (sortByX ps)

/-- The label transform computed for an edge in the TB branch once source and
target positions are both defined: with a fan-out of more than one target the
index of the target in the x-sorted fan-out decides between the left, right
and middle translate strings; with a single target the source and target x
coordinates are compared. -/
def tbLabelTransform (sourcePos targetPos : XY) (fanout : List (String × Int))
    (target : String) : String :=
  if 1 < fanout.length then
    if (sortByX fanout).findIdx (fun p => p.1 == target) = 0 then
      "translate(-100px, -16px)"
    else if (sortByX fanout).findIdx (fun p => p.1 == target) = (sortByX fanout).length - 1 then
      "translate(100px, -16px)"
    else "translate(0px, -20px)"
  else
    if sourcePos.x < targetPos.x then "translate(-100px, -16px)"
    else if targetPos.x < sourcePos.x then "translate(100px, -16px)"
    else "translate(0px, -16px)"

/-- The transform assigned to the labelStyle of an edge: the default unless
the direction is TB and both endpoint positions exist. -/
def edgeLabelTransform (layout : String → XY) (nodes : List FlowNode) (edges : List FlowEdge)
    (direction : LayoutDirection) (edge : FlowEdge) : String :=
  match direction, layoutNodeMap layout nodes edge.source, layoutNodeMap layout nodes edge.target with
  | .TB, some sourcePos, some targetPos =>
    tbLabelTransform sourcePos targetPos (fanoutTargets layout nodes edges edge.source) edge.target
  | _, _, _ => "translate(0px, -16px)"

/-- The constant style given to every laid out node. -/
def layoutedNodeStyle : NodeStyle :=
  ⟨"#06b6d4", "#ffffff", "2px solid #0891b2", 8, "bold", 10⟩

/-- The function mapped over the nodes: position at the dagre centre minus
half the fixed node size, handle positions from the direction, constant
style. -/
def layoutNode (layout : String → XY) (direction : LayoutDirection) (node : FlowNode) :
    FlowNode :=
  let pos := layout node.id
  { node with
    position := ⟨pos.x - nodeWidth / 2, pos.y - nodeHeight / 2⟩
    sourcePosition := some (if isHorizontalDir direction then .right else .bottom)
    targetPosition := some (if isHorizontalDir direction then .left else .top)
    style := some layoutedNodeStyle }

/-- The function mapped over the edges: closed-arrow marker, defaulted label,
stroke style, label style carrying the computed transform, and label
background settings. -/
def layoutEdge (layout : String → XY) (nodes : List FlowNode) (edges : List FlowEdge)
    (direction : LayoutDirection) (edge : FlowEdge) : FlowEdge :=
  { edge with
    markerEnd := some ⟨MarkerKind.arrowClosed, "#ec4899"⟩
    label := some (edge.label.getD "")
    style := some ⟨"#ec4899", 2⟩
    labelStyle := some ⟨"#fef9c3", 600, edgeLabelTransform layout nodes edges direction edge,
      14, 50, "normal", "break-word", "break-word", "50px"⟩
    labelBgStyle := some ⟨0⟩
    labelBgPadding := some (4, 2)
    labelBgBorderRadius := some 4 }

/-- getLayoutedElements: the two maps over the input node and edge lists. -/
def getLayoutedElements (layout : String → XY) (nodes : List FlowNode) (edges : List FlowEdge)
    (direction : LayoutDirection) : LayoutResult :=
  ⟨nodes.map (layoutNode layout direction), edges.map (layoutEdge layout nodes edges direction)⟩

/-! ## Static system design data (nodes and edges of the mock dataset) -/

def systemDesignNodes : List FlowNode :=
  [⟨"1", ⟨"API Gateway"⟩, ⟨0, 0⟩, none, none, none⟩,
   ⟨"2", ⟨"Upload Service"⟩, ⟨200, 0⟩, none, none, none⟩,
   ⟨"3", ⟨"File Storage (S3)"⟩, ⟨400, -100⟩, none, none, none⟩,
   ⟨"4", ⟨"Submission Metadata DB"⟩, ⟨400, 100⟩, none, none, none⟩,
   ⟨"5", ⟨"Scan Orchestrator"⟩, ⟨600, 0⟩, none, none, none⟩,
   ⟨"6", ⟨"Engine A (AV)"⟩, ⟨800, -150⟩, none, none, none⟩,
   ⟨"7", ⟨"Engine B (Static)"⟩, ⟨800, 0⟩, none, none, none⟩,
   ⟨"8", ⟨"Engine C (Sandbox)"⟩, ⟨800, 150⟩, none, none, none⟩,
   ⟨"9", ⟨"Result Aggregator"⟩, ⟨1000, 0⟩, none, none, none⟩,
   ⟨"10", ⟨"Scan Result DB"⟩, ⟨1200, 0⟩, none, none, none⟩,
   ⟨"11", ⟨"Search & Query API"⟩, ⟨1400, 0⟩, none, none, none⟩]

def systemDesignEdges : List FlowEdge :=
  [{ id := "e1-2", source := "1", target := "2", label := some "Submit file or URL" },
   { id := "e2-3", source := "2", target := "3", label := some "Store binary" },
   { id := "e2-4", source := "2", target := "4", label := some "Save metadata" },
   { id := "e4-5", source := "4", target := "5", label := some "Queue scan job" },
   { id := "e5-6", source := "5", target := "6", label := some "Dispatch to AV engine" },
   { id := "e5-7", source := "5", target := "7", label := some "Dispatch to static engine" },
   { id := "e5-8", source := "5", target := "8", label := some "Dispatch to sandbox engine" },
   { id := "e6-9", source := "6", target := "9", label := some "Return scan result" },
   { id := "e7-9", source := "7", target := "9", label := some "Return scan result" },
   { id := "e8-9", source := "8", target := "9", label := some "Return scan result" },
   { id := "e9-10", source := "9", target := "10", label := some "Persist aggregated result" },
   { id := "e10-11", source := "10", target := "11", label := some "Serve query" }]

/-! ## Render model -/

/-- The tab names, in order. -/
def TABS : List String :=
  ["Description", "Requirements", "Diagram", "Database Schema", "Tradeoff"]

/-- Abstract render output: which top-level pieces of the JSX appear. -/
inductive RenderedSection
  | debugView
  | screenshotQueue
  | solutionCommands
  | problemStatement
  | codingSolution
  | tabBar (tabs : List String)
  | descriptionTab
  | requirementsTab
  | diagramTab
  | databaseSchemaTab
  | tradeoffTab
deriving DecidableEq

/-- The render function of the component, read off the JSX: the Debug view
replaces everything when not resetting and a new_solution is cached; the
static mock dataset is a truthy constant, so each system design block is
guarded only by the interview mode and the active tab. -/
def render (mode : String) (s : SolutionsState) : List RenderedSection :=
  if s.isResetting = false ∧ s.cache.new_solution.isSome then [.debugView]
  else
    (if s.solutionData.isSome then [.screenshotQueue] else []) ++
    [.solutionCommands] ++
    (if s.solutionData = none ∧ mode = "Coding" then [.problemStatement] else []) ++
    (if s.solutionData.isSome ∧ mode = "Coding" then [.codingSolution] else []) ++
    (if mode = "SystemDesign" then [.tabBar TABS] else []) ++
    (if mode = "SystemDesign" ∧ s.activeSystemDesignSolutionTab = "Diagram" then
      [.diagramTab] else []) ++
    (if mode = "SystemDesign" ∧ s.activeSystemDesignSolutionTab = "Description" then
      [.descriptionTab] else []) ++
    (if mode = "SystemDesign" ∧ s.activeSystemDesignSolutionTab = "Requirements" then
      [.requirementsTab] else []) ++
    (if mode = "SystemDesign" ∧ s.activeSystemDesignSolutionTab = "Database Schema" then
      [.databaseSchemaTab] else []) ++
    (if mode = "SystemDesign" ∧ s.activeSystemDesignSolutionTab = "Tradeoff" then
      [.tradeoffTab] else [])

/-- The five tab-content sections among the rendered sections. -/
def isTabContent : RenderedSection → Bool
  | .descriptionTab => true
  | .requirementsTab => true
  | .diagramTab => true
  | .databaseSchemaTab => true
  | .tradeoffTab => true
  | _ => false

/-- The content section each tab name selects. -/
def tabContentOf : String → RenderedSection
  | "Description" => .descriptionTab
  | "Requirements" => .requirementsTab
  | "Diagram" => .diagramTab
  | "Database Schema" => .databaseSchemaTab
  | _ => .tradeoffTab

/-! ## Theorems about the event handlers -/

/-- Claim C3: after the reset-view handler runs, the query cache holds no
solution entry and no new_solution entry, and the extra-screenshots list is
empty, for every starting state. -/
theorem onResetView_clears_solution_and_screenshots (s : SolutionsState) :
    (onResetView s).cache.solution = none ∧
    (onResetView s).cache.new_solution = none ∧
    (onResetView s).extraScreenshots = [] :=
  ⟨rfl, rfl, rfl⟩

/-- Claim C7: after the solution-start handler runs, all four local solution
fields are null, regardless of their previous values. -/
theorem onSolutionStart_clears_solution_fields (s : SolutionsState) :
    (onSolutionStart s).solutionData = none ∧
    (onSolutionStart s).thoughtsData = none ∧
    (onSolutionStart s).timeComplexityData = none ∧
    (onSolutionStart s).spaceComplexityData = none :=
  ⟨rfl, rfl, rfl, rfl⟩

/-- Claim C10: the reset-view handler never touches the problem_statement
cache entry: in any state where a problem statement is cached it stays cached
with the same value, problemStatementData keeps its value, and the solution
and debug entries are cleared. -/
theorem onResetView_preserves_problem_statement (s : SolutionsState)
    (h : s.cache.problem_statement.isSome = true) :
    (onResetView s).cache.problem_statement = s.cache.problem_statement ∧
    (onResetView s).cache.problem_statement.isSome = true ∧
    (onResetView s).problemStatementData = s.problemStatementData ∧
    (onResetView s).cache.solution = none ∧
    (onResetView s).cache.new_solution = none :=
  ⟨rfl, h, rfl, rfl, rfl⟩

/-- A state with a cached problem statement, used to instantiate the
preservation theorem. -/
def cachedProblemState : SolutionsState :=
  { initialSolutionsState with
    cache := ⟨some ⟨"find the duplicates"⟩, none, none⟩
    problemStatementData := some ⟨"find the duplicates"⟩ }

/-- Witness for claim C10 at a concrete state. -/
theorem onResetView_preserves_problem_statement_witness :
    cachedProblemState.cache.problem_statement.isSome = true ∧
    (onResetView cachedProblemState).cache.problem_statement = some ⟨"find the duplicates"⟩ ∧
    (onResetView cachedProblemState).problemStatementData = some ⟨"find the duplicates"⟩ :=
  ⟨rfl,
   (onResetView_preserves_problem_statement cachedProblemState rfl).1,
   (onResetView_preserves_problem_statement cachedProblemState rfl).2.2.1⟩

/-- A state in which the view shows solutions, a solution string is held
locally, but no solution is cached. -/
def errorNoSolutionState : SolutionsState :=
  { initialSolutionsState with
    view := .solutions
    solutionData := some "let x = 1" }

/-- Counterexample to claim C2: when no solution is cached, the
solution-error handler changes the view (to queue) and overwrites the local
solution field, so it is not purely cosmetic. -/
theorem onSolutionError_changes_view_and_fields :
    (onSolutionError "boom" errorNoSolutionState).view ≠ errorNoSolutionState.view ∧
    (onSolutionError "boom" errorNoSolutionState).solutionData ≠
      errorNoSolutionState.solutionData := by
  decide

/-- Claim C2 as amended: the debug-error handler changes none of the four
local solution fields, the query cache or the view; the solution-error
handler leaves the query cache unchanged, resets the four local solution
fields from the cached solution entry (null when the entry or a field is
absent, or a string field is empty), and switches the view to queue exactly
when no solution is cached. -/
theorem error_handlers_state_effect (s : SolutionsState) (err : String) :
    ((onDebugError s).solutionData = s.solutionData ∧
     (onDebugError s).thoughtsData = s.thoughtsData ∧
     (onDebugError s).timeComplexityData = s.timeComplexityData ∧
     (onDebugError s).spaceComplexityData = s.spaceComplexityData ∧
     (onDebugError s).cache = s.cache ∧
     (onDebugError s).view = s.view) ∧
    ((onSolutionError err s).cache = s.cache ∧
     (onSolutionError err s).solutionData =
       jsStringOrNull (s.cache.solution.bind CachedSolution.code) ∧
     (onSolutionError err s).thoughtsData = s.cache.solution.bind CachedSolution.thoughts ∧
     (onSolutionError err s).timeComplexityData =
       jsStringOrNull (s.cache.solution.bind CachedSolution.time_complexity) ∧
     (onSolutionError err s).spaceComplexityData =
       jsStringOrNull (s.cache.solution.bind CachedSolution.space_complexity) ∧
     (onSolutionError err s).view = if s.cache.solution = none then View.queue else s.view) := by
  refine ⟨⟨rfl, rfl, rfl, rfl, rfl, rfl⟩, ?_⟩
  by_cases h : s.cache.solution = none <;>
    simp [onSolutionError, showToastTo, h]

/-- Claim C4: the cache-subscription callback, on an event whose query key
starts with solution, sets the four local fields to exactly the
corresponding fields of the cached solution entry, null when a field or the
entry is absent; on an event whose query key starts with problem_statement,
it sets problemStatementData to the cached entry or null when absent. -/
theorem onCacheNotification_mirrors_cache (s : SolutionsState) (queryKey : List String) :
    (queryKey.head? = some "solution" →
      (onCacheNotification queryKey s).solutionData =
        s.cache.solution.bind CachedSolution.code ∧
      (onCacheNotification queryKey s).thoughtsData =
        s.cache.solution.bind CachedSolution.thoughts ∧
      (onCacheNotification queryKey s).timeComplexityData =
        s.cache.solution.bind CachedSolution.time_complexity ∧
      (onCacheNotification queryKey s).spaceComplexityData =
        s.cache.solution.bind CachedSolution.space_complexity) ∧
    (queryKey.head? = some "problem_statement" →
      (onCacheNotification queryKey s).problemStatementData = s.cache.problem_statement) := by
  constructor
  · intro h
    have hps : ¬ (queryKey.head? = some "problem_statement") := by rw [h]; decide
    simp only [onCacheNotification]
    rw [if_neg hps, if_pos h]
    exact ⟨rfl, rfl, rfl, rfl⟩
  · intro h
    have hsol : ¬ (queryKey.head? = some "solution") := by rw [h]; decide
    simp only [onCacheNotification]
    rw [if_pos h, if_neg hsol]

/-- A state with both a cached problem statement and a cached solution whose
space_complexity field is absent. -/
def subscriptionWitnessState : SolutionsState :=
  { initialSolutionsState with
    cache := ⟨some ⟨"two sum"⟩, some ⟨some "return xs", some ["scan once"], some "O(n)", none⟩,
      none⟩ }

/-- Witness for claim C4 on concrete events for both key kinds. -/
theorem onCacheNotification_mirrors_cache_witness :
    (["solution", "extra"].head? = some "solution") ∧
    (onCacheNotification ["solution", "extra"] subscriptionWitnessState).solutionData =
      some "return xs" ∧
    (onCacheNotification ["solution", "extra"] subscriptionWitnessState).spaceComplexityData =
      none ∧
    (onCacheNotification ["problem_statement"] subscriptionWitnessState).problemStatementData =
      some ⟨"two sum"⟩ :=
  ⟨rfl,
   ((onCacheNotification_mirrors_cache subscriptionWitnessState ["solution", "extra"]).1 rfl).1,
   ((onCacheNotification_mirrors_cache subscriptionWitnessState
      ["solution", "extra"]).1 rfl).2.2.2,
   (onCacheNotification_mirrors_cache subscriptionWitnessState ["problem_statement"]).2 rfl⟩

/-! ## Theorems about formatComplexity -/

/-- Any string formed by the prefix used by the source followed by anything
contains the big-O pattern. -/
theorem hasBigO_oN_prepended (s : String) : hasBigO ("O(n) - " ++ s).data = true := rfl

/-- The prefixed string is never empty. -/
theorem oN_prefix_ne_empty (s : String) : "O(n) - " ++ s ≠ "" := by
  intro heq
  have h2 : ('O' :: '(' :: 'n' :: ')' :: ' ' :: '-' :: ' ' :: s.data) = ([] : List Char) :=
    congrArg String.data heq
  exact List.cons_ne_nil _ _ h2

/-- A string containing the big-O pattern is nonempty. -/
theorem ne_empty_of_hasBigO {s : String} (h : hasBigO s.data = true) : s ≠ "" := by
  intro he
  rw [he] at h
  exact absurd h (by decide)

/-- Counterexample to claim C8 as stated: the empty string contains no big-O
pattern, yet formatComplexity maps it to the default text rather than to the
prefix followed by the empty string (the source treats the empty string as
falsy, like null). -/
theorem formatComplexity_empty_string :
    hasBigO "".data = false ∧
    formatComplexity (some "") = complexityDefault ∧
    formatComplexity (some "") ≠ "O(n) - " ++ "" := by
  decide

/-- Claim C8 as amended: formatComplexity maps null and the empty string to
the default text, returns any string containing a big-O pattern unchanged,
prefixes every other nonempty string, and is idempotent on every input. -/
theorem formatComplexity_spec :
    formatComplexity none = complexityDefault ∧
    formatComplexity (some "") = complexityDefault ∧
    (∀ s : String, hasBigO s.data = true → formatComplexity (some s) = s) ∧
    (∀ s : String, s ≠ "" → hasBigO s.data = false →
      formatComplexity (some s) = "O(n) - " ++ s) ∧
    (∀ x : Option String, formatComplexity (some (formatComplexity x)) = formatComplexity x) := by
  have hmatch : ∀ s : String, hasBigO s.data = true → formatComplexity (some s) = s := by
    intro s h
    simp only [formatComplexity]
    rw [if_neg (ne_empty_of_hasBigO h), if_pos h]
  have hplain : ∀ s : String, s ≠ "" → hasBigO s.data = false →
      formatComplexity (some s) = "O(n) - " ++ s := by
    intro s hne hf
    simp only [formatComplexity]
    rw [if_neg hne, if_neg (by simp [hf])]
  have hdefault : formatComplexity (some complexityDefault) = complexityDefault :=
    hmatch complexityDefault (by decide)
  refine ⟨rfl, rfl, hmatch, hplain, ?_⟩
  intro x
  match x with
  | none => exact hdefault
  | some s =>
    by_cases hs : s = ""
    · rw [hs]
      show formatComplexity (some (formatComplexity (some ""))) = formatComplexity (some "")
      have h0 : formatComplexity (some "") = complexityDefault := rfl
      rw [h0]
      exact hdefault
    · by_cases hb : hasBigO s.data = true
      · rw [hmatch s hb]
        exact hmatch s hb
      · rw [hplain s hs (by simpa using hb)]
        exact hmatch _ (hasBigO_oN_prepended s)

/-- Witness for claim C8 as amended, at concrete complexity strings. -/
theorem formatComplexity_spec_witness :
    hasBigO "O(1) lookups".data = true ∧
    formatComplexity (some "O(1) lookups") = "O(1) lookups" ∧
    formatComplexity (some "constant") = "O(n) - constant" ∧
    formatComplexity (some (formatComplexity (some "constant"))) =
      formatComplexity (some "constant") :=
  ⟨by decide,
   formatComplexity_spec.2.2.1 "O(1) lookups" (by decide),
   formatComplexity_spec.2.2.2.1 "constant" (by decide) (by decide),
   formatComplexity_spec.2.2.2.2 (some "constant")⟩

/-! ## Theorems about getLayoutedElements -/

/-- Claim C6: getLayoutedElements returns node and edge lists of the same
length and order as its inputs; every node keeps its id and data label and
only gains its position (taken from the layout oracle), handle positions and
the constant style; every edge keeps its id, source and target, has its label
defaulted to its input text, and only gains the constant marker, stroke
style, label style (with some transform) and label background fields. -/
theorem getLayoutedElements_frame (layout : String → XY) (nodes : List FlowNode)
    (edges : List FlowEdge) (direction : LayoutDirection) :
    ((getLayoutedElements layout nodes edges direction).nodes.length = nodes.length ∧
     (getLayoutedElements layout nodes edges direction).edges.length = edges.length) ∧
    List.Forall₂ (fun (n m : FlowNode) =>
      m.id = n.id ∧ m.data = n.data ∧
      m.position = ⟨(layout n.id).x - nodeWidth / 2, (layout n.id).y - nodeHeight / 2⟩ ∧
      m.sourcePosition = some (if isHorizontalDir direction then .right else .bottom) ∧
      m.targetPosition = some (if isHorizontalDir direction then .left else .top) ∧
      m.style = some layoutedNodeStyle)
      nodes (getLayoutedElements layout nodes edges direction).nodes ∧
    List.Forall₂ (fun (e g : FlowEdge) =>
      g.id = e.id ∧ g.source = e.source ∧ g.target = e.target ∧
      g.label = some (e.label.getD "") ∧
      g.markerEnd = some ⟨MarkerKind.arrowClosed, "#ec4899"⟩ ∧
      g.style = some ⟨"#ec4899", 2⟩ ∧
      (∃ t, g.labelStyle =
        some ⟨"#fef9c3", 600, t, 14, 50, "normal", "break-word", "break-word", "50px"⟩) ∧
      g.labelBgStyle = some ⟨0⟩ ∧ g.labelBgPadding = some (4, 2) ∧
      g.labelBgBorderRadius = some 4)
      edges (getLayoutedElements layout nodes edges direction).edges := by
  have hn : (getLayoutedElements layout nodes edges direction).nodes =
      nodes.map (layoutNode layout direction) := rfl
  have he : (getLayoutedElements layout nodes edges direction).edges =
      edges.map (layoutEdge layout nodes edges direction) := rfl
  refine ⟨⟨by rw [hn, List.length_map], by rw [he, List.length_map]⟩, ?_, ?_⟩
  · rw [hn, List.forall₂_map_right_iff, List.forall₂_same]
    intro x _
    exact ⟨rfl, rfl, rfl, rfl, rfl, rfl⟩
  · rw [he, List.forall₂_map_right_iff, List.forall₂_same]
    intro x _
    exact ⟨rfl, rfl, rfl, rfl, rfl, rfl, ⟨_, rfl⟩, rfl, rfl, rfl⟩

/-- Claim C9: every node of the input list appears in the output positioned
at the dagre centre shifted by minus half the node size (x - 60, y - 30), and
its handle positions depend only on the direction: Right and Left for the
horizontal directions, Bottom and Top otherwise. -/
theorem getLayoutedElements_node_layout (layout : String → XY) (nodes : List FlowNode)
    (edges : List FlowEdge) (direction : LayoutDirection) (node : FlowNode)
    (hmem : node ∈ nodes) :
    ∃ n ∈ (getLayoutedElements layout nodes edges direction).nodes,
      n.id = node.id ∧ n.data = node.data ∧
      n.position = ⟨(layout node.id).x - 60, (layout node.id).y - 30⟩ ∧
      ((direction = .LR ∨ direction = .RL) →
        n.sourcePosition = some HandlePosition.right ∧
        n.targetPosition = some HandlePosition.left) ∧
      ((direction = .TB ∨ direction = .BT) →
        n.sourcePosition = some HandlePosition.bottom ∧
        n.targetPosition = some HandlePosition.top) := by
  refine ⟨layoutNode layout direction node, List.mem_map_of_mem _ hmem, rfl, rfl, rfl, ?_, ?_⟩
  · rintro (h | h) <;> subst h <;> exact ⟨rfl, rfl⟩
  · rintro (h | h) <;> subst h <;> exact ⟨rfl, rfl⟩

/-- A plausible dagre output for the static system design graph under the TB
direction (the oracle values are arbitrary for the theorems; fixed here to
instantiate them). -/
def mockLayout : String → XY
  | "1" => ⟨80, 50⟩
  | "2" => ⟨80, 160⟩
  | "3" => ⟨80, 270⟩
  | "4" => ⟨220, 270⟩
  | "5" => ⟨220, 380⟩
  | "6" => ⟨80, 490⟩
  | "7" => ⟨220, 490⟩
  | "8" => ⟨360, 490⟩
  | "9" => ⟨220, 600⟩
  | "10" => ⟨220, 710⟩
  | "11" => ⟨220, 820⟩
  | _ => ⟨0, 0⟩

def apiGatewayNode : FlowNode := ⟨"1", ⟨"API Gateway"⟩, ⟨0, 0⟩, none, none, none⟩

/-- Witness for claim C9 on the static dataset and the mock layout. -/
theorem getLayoutedElements_node_layout_witness :
    apiGatewayNode ∈ systemDesignNodes ∧
    ∃ n ∈ (getLayoutedElements mockLayout systemDesignNodes systemDesignEdges .TB).nodes,
      n.id = "1" ∧ n.position = ⟨20, 20⟩ ∧
      n.sourcePosition = some HandlePosition.bottom ∧
      n.targetPosition = some HandlePosition.top := by
  have hmem : apiGatewayNode ∈ systemDesignNodes := by decide
  obtain ⟨n, hn, hid, _, hpos, _, htb⟩ :=
    getLayoutedElements_node_layout mockLayout systemDesignNodes systemDesignEdges .TB
      apiGatewayNode hmem
  obtain ⟨hsrc, htgt⟩ := htb (Or.inl rfl)
  exact ⟨hmem, n, hn, hid, by rw [hpos]; decide, hsrc, htgt⟩

/-! ## Theorems about rendering -/

/-- A state in which a debug solution is cached and the component is not
resetting: the JSX then renders the Debug view instead of everything else. -/
def debugOverlayState : SolutionsState :=
  { initialSolutionsState with cache := ⟨none, none, some ⟨"patched code"⟩⟩ }

/-- Counterexample to claim C5 as stated: in SystemDesign mode, in a state
with a cached new_solution and isResetting false, the component renders the
Debug view and no tab bar at all. -/
theorem tabBar_not_rendered_with_debug_overlay :
    render "SystemDesign" debugOverlayState = [RenderedSection.debugView] ∧
    RenderedSection.tabBar TABS ∉ render "SystemDesign" debugOverlayState := by
  decide

/-- Claim C5 as amended: whenever the Debug view is not active (the component
is resetting or no new_solution is cached), SystemDesign mode renders the tab
bar with exactly the five tabs Description, Requirements, Diagram, Database
Schema, Tradeoff; the initially active tab is Diagram; for each of the five
active-tab values exactly the matching content section is rendered; and in
Coding mode no tab bar and no tab content renders, while a coding section
(problem statement or solution) does. -/
theorem systemDesign_tab_rendering (s : SolutionsState)
    (hdebug : s.isResetting = true ∨ s.cache.new_solution = none) :
    TABS = ["Description", "Requirements", "Diagram", "Database Schema", "Tradeoff"] ∧
    initialSolutionsState.activeSystemDesignSolutionTab = "Diagram" ∧
    RenderedSection.tabBar TABS ∈ render "SystemDesign" s ∧
    (∀ tab ∈ TABS, s.activeSystemDesignSolutionTab = tab →
      (render "SystemDesign" s).filter isTabContent = [tabContentOf tab]) ∧
    (render "Coding" s).filter isTabContent = [] ∧
    RenderedSection.tabBar TABS ∉ render "Coding" s ∧
    (RenderedSection.problemStatement ∈ render "Coding" s ∨
     RenderedSection.codingSolution ∈ render "Coding" s) := by
  have hcond : ¬(s.isResetting = false ∧ s.cache.new_solution.isSome = true) := by
    rcases hdebug with h | h
    · rintro ⟨h1, _⟩
      rw [h] at h1
      exact absurd h1 (by decide)
    · rintro ⟨_, h2⟩
      rw [h] at h2
      exact absurd h2 (by decide)
  refine ⟨rfl, rfl, ?_, ?_, ?_, ?_, ?_⟩
  · simp [render, hcond]
  · intro tab htab hactive
    have h5 : tab = "Description" ∨ tab = "Requirements" ∨ tab = "Diagram" ∨
        tab = "Database Schema" ∨ tab = "Tradeoff" := by simpa [TABS] using htab
    rcases h5 with rfl | rfl | rfl | rfl | rfl <;>
      simp [render, hcond, hactive, List.filter_append,
        apply_ite (List.filter isTabContent), isTabContent, tabContentOf]
  · simp [render, hcond, List.filter_append, apply_ite (List.filter isTabContent), isTabContent]
  · simp [render, hcond]
  · rcases hsd : s.solutionData with _ | v
    · left
      simp [render, hcond, hsd]
    · right
      simp [render, hcond, hsd]

/-- Witness for claim C5 as amended, at the initial state. -/
theorem systemDesign_tab_rendering_witness :
    initialSolutionsState.cache.new_solution = none ∧
    RenderedSection.tabBar TABS ∈ render "SystemDesign" initialSolutionsState ∧
    (render "SystemDesign" initialSolutionsState).filter isTabContent =
      [RenderedSection.diagramTab] := by
  have h := systemDesign_tab_rendering initialSolutionsState (Or.inr rfl)
  exact ⟨rfl, h.2.2.1, h.2.2.2.1 "Diagram" (by decide) rfl⟩

/-! ## Fan-out label transform (claim C1) -/

/-- Inserting keeps the elements: the insertion is a permutation of
prepending. -/
theorem insertByX_perm (p : String × Int) (l : List (String × Int)) :
    List.Perm (insertByX p l) (p :: l) := by
  induction l with
  | nil => exact List.Perm.refl _
  | cons q qs ih =>
    rw [insertByX]
    split
    · exact List.Perm.refl _
    · exact (ih.cons q).trans (List.Perm.swap p q qs)

/-- The stable sort is a permutation of its input. -/
theorem sortByX_perm (l : List (String × Int)) : List.Perm (sortByX l) l := by
  induction l with
  | nil => exact List.Perm.refl _
  | cons p ps ih =>
    rw [sortByX]
    exact (insertByX_perm p (sortByX ps)).trans (ih.cons p)

/-- findIdx over a list that starts with elements failing the predicate and
then an element satisfying it returns the length of the failing prefix. -/
theorem findIdx_prefix_concat (pred : (String × Int) → Bool) (l1 : List (String × Int))
    (a : String × Int) (l2 : List (String × Int))
    (h1 : ∀ x ∈ l1, pred x = false) (ha : pred a = true) :
    (l1 ++ a :: l2).findIdx pred = l1.length := by
  induction l1 with
  | nil => simp [List.findIdx_cons, ha]
  | cons b bs ih =>
    have hb : pred b = false := h1 b (List.mem_cons_self b bs)
    simp only [List.cons_append, List.findIdx_cons, hb, cond_false, List.length_cons]
    rw [ih (fun x hx => h1 x (List.mem_cons_of_mem b hx))]

/-- A list of pairs with pairwise distinct first components containing the
key t splits uniquely around the one pair carrying t. -/
theorem split_of_nodup_mem (l : List (String × Int)) (t : String)
    (hnd : (l.map Prod.fst).Nodup) (hmem : t ∈ l.map Prod.fst) :
    ∃ l1 x l2, l = l1 ++ (t, x) :: l2 ∧ (∀ p ∈ l1, p.1 ≠ t) ∧ (∀ p ∈ l2, p.1 ≠ t) := by
  induction l with
  | nil => simp at hmem
  | cons a rest ih =>
    rw [List.map_cons, List.nodup_cons] at hnd
    obtain ⟨hna, hnrest⟩ := hnd
    rw [List.map_cons, List.mem_cons] at hmem
    by_cases hat : a.1 = t
    · refine ⟨[], a.2, rest, ?_, ?_, ?_⟩
      · rw [List.nil_append, ← hat]
      · intro p hp
        exact absurd hp (List.not_mem_nil p)
      · intro p hp heq
        rw [hat] at hna
        exact hna (heq ▸ List.mem_map_of_mem Prod.fst hp)
    · have hmem2 : t ∈ rest.map Prod.fst := by
        rcases hmem with h | h
        · exact absurd h.symm hat
        · exact h
      obtain ⟨l1, x, l2, heq, h1, h2⟩ := ih hnrest hmem2
      refine ⟨a :: l1, x, l2, by rw [heq, List.cons_append], ?_, h2⟩
      intro p hp
      rcases List.mem_cons.mp hp with rfl | hp2
      · exact hat
      · exact h1 p hp2

/-- Claim C1: under the TB direction, for an edge whose endpoints are
laid-out nodes and whose source fans out to more than one distinct target,
the label transform of the corresponding output edge is decided by the place
of its target in the fan-out sorted by x coordinate: the edge of the
leftmost target gets the left translate string, the edge of the rightmost
target gets the right translate string, and every edge in between gets the
middle translate string. -/
theorem fanout_edge_label_transforms (layout : String → XY) (nodes : List FlowNode)
    (edges : List FlowEdge) (e : FlowEdge) (he : e ∈ edges)
    (hs : (layoutNodeMap layout nodes e.source).isSome = true)
    (ht : (layoutNodeMap layout nodes e.target).isSome = true)
    (hlen : 1 < (fanoutTargets layout nodes edges e.source).length)
    (hnd : ((fanoutTargets layout nodes edges e.source).map Prod.fst).Nodup) :
    ∃ g ∈ (getLayoutedElements layout nodes edges .TB).edges,
      g.id = e.id ∧ g.source = e.source ∧ g.target = e.target ∧
      g.labelStyle.map LabelStyle.transform = some
        (if (sortByX (fanoutTargets layout nodes edges e.source)).head?.map Prod.fst =
            some e.target then "translate(-100px, -16px)"
         else if (sortByX (fanoutTargets layout nodes edges e.source)).getLast?.map Prod.fst =
            some e.target then "translate(100px, -16px)"
         else "translate(0px, -20px)") := by
  obtain ⟨sp, hsp⟩ := Option.isSome_iff_exists.mp hs
  obtain ⟨tp, htp⟩ := Option.isSome_iff_exists.mp ht
  refine ⟨layoutEdge layout nodes edges .TB e, List.mem_map_of_mem _ he, rfl, rfl, rfl, ?_⟩
  have hgoal : (layoutEdge layout nodes edges .TB e).labelStyle.map LabelStyle.transform =
      some (edgeLabelTransform layout nodes edges .TB e) := rfl
  rw [hgoal]
  have hev : edgeLabelTransform layout nodes edges .TB e =
      tbLabelTransform sp tp (fanoutTargets layout nodes edges e.source) e.target := by
    unfold edgeLabelTransform
    rw [hsp, htp]
  rw [hev]
  congr 1
  have hperm := sortByX_perm (fanoutTargets layout nodes edges e.source)
  have hpermf := hperm.map Prod.fst
  have hmemt : e.target ∈ (fanoutTargets layout nodes edges e.source).map Prod.fst := by
    unfold fanoutTargets
    rw [List.map_map]
    exact List.mem_map_of_mem _ (List.mem_filter.mpr ⟨he, by simp⟩)
  have hmemS : e.target ∈ (sortByX (fanoutTargets layout nodes edges e.source)).map Prod.fst :=
    hpermf.mem_iff.mpr hmemt
  have hndS : ((sortByX (fanoutTargets layout nodes edges e.source)).map Prod.fst).Nodup :=
    hpermf.nodup_iff.mpr hnd
  obtain ⟨l1, x, l2, hsplit, h1, h2⟩ := split_of_nodup_mem _ e.target hndS hmemS
  have hidx : (sortByX (fanoutTargets layout nodes edges e.source)).findIdx
      (fun p => p.1 == e.target) = l1.length := by
    rw [hsplit]
    refine findIdx_prefix_concat _ l1 (e.target, x) l2 ?_ (by simp)
    intro q hq
    rw [beq_eq_false_iff_ne]
    exact h1 q hq
  unfold tbLabelTransform
  rw [if_pos hlen, hidx, hsplit]
  cases l1 with
  | nil => simp
  | cons c l1t =>
    have hc : c.1 ≠ e.target := h1 c (List.mem_cons_self c l1t)
    cases l2 with
    | nil =>
      rw [if_neg (by simp),
        if_pos (by simp only [List.length_append, List.length_cons, List.length_nil]; omega),
        if_neg (by simp [hc]),
        if_pos (by rw [List.getLast?_concat]; rfl)]
    | cons d l2t =>
      obtain ⟨b, hb, hbmem⟩ : ∃ b, (d :: l2t).getLast? = some b ∧ b ∈ d :: l2t :=
        ⟨(d :: l2t).getLast (by simp), List.getLast?_eq_getLast _ (by simp),
          List.getLast_mem _⟩
      have hbne : b.1 ≠ e.target := h2 b hbmem
      have hL1 : ¬((c :: l1t).length = 0) := by simp
      have hL2 : ¬((c :: l1t).length =
          ((c :: l1t) ++ (e.target, x) :: d :: l2t).length - 1) := by
        simp only [List.length_append, List.length_cons]
        omega
      rw [if_neg hL1, if_neg hL2]
      have hH : ¬(((c :: l1t) ++ (e.target, x) :: d :: l2t).head?.map Prod.fst =
          some e.target) := by
        simp [hc]
      have hg2 : ((c :: l1t) ++ (e.target, x) :: d :: l2t).getLast? = some b := by
        rw [List.getLast?_append, List.getLast?_cons_cons, hb]
        rfl
      have hG : ¬(((c :: l1t) ++ (e.target, x) :: d :: l2t).getLast?.map Prod.fst =
          some e.target) := by
        rw [hg2]
        simp [hbne]
      rw [if_neg hH, if_neg hG]

/-- The dispatch edge from the scan orchestrator to the AV engine in the
static dataset. -/
def dispatchAVEdge : FlowEdge :=
  { id := "e5-6", source := "5", target := "6", label := some "Dispatch to AV engine" }

/-- Witness for claim C1: in the static dataset under the mock layout, the
orchestrator fans out to three engines and the edge to the leftmost engine
receives the left translate string. -/
theorem fanout_edge_label_transforms_witness :
    dispatchAVEdge ∈ systemDesignEdges ∧
    1 < (fanoutTargets mockLayout systemDesignNodes systemDesignEdges "5").length ∧
    ∃ g ∈ (getLayoutedElements mockLayout systemDesignNodes systemDesignEdges .TB).edges,
      g.id = "e5-6" ∧ g.target = "6" ∧
      g.labelStyle.map LabelStyle.transform = some "translate(-100px, -16px)" := by
  obtain ⟨g, hg, hid, hsrc, htgt, htr⟩ :=
    fanout_edge_label_transforms mockLayout systemDesignNodes systemDesignEdges dispatchAVEdge
      (by decide) (by decide) (by decide) (by decide) (by decide)
  refine ⟨by decide, by decide, g, hg, hid, htgt, ?_⟩
  rw [htr]
  decide
